import Mathlib

/-!
Verification development for the disCarbon POAP dispenser API.

The definitions below are a shallow embedding of `src/app/wen_poap.py`
(classes `PoapApiWrapper` and `EventABC`) and of the route handlers in
`src/app/main.py`.  Upstream HTTP behaviour (the POAP claim service, the
OAuth endpoint, the eligibility data source) is modelled as explicit
function-valued parameters; Python exceptions are modelled with
`Except`/`PyOutcome`; `datetime` instants are modelled as integers.
-/

namespace WenPoap

/-- Embeds the `CollectorStatus` enum of `wen_poap.py`. -/
inductive CollectorStatus where
  | is_not_eligible
  | is_eligible
  | has_collected
deriving DecidableEq, Repr

/-- The part of a `requests` response to `actions/scan/{address}/{event_id}`
that `EventABC.has_collected` inspects. -/
structure ScanResponse where
  status_code : Nat
  reason : String
  text : String
deriving DecidableEq, Repr

/-- The parsed body (plus the HTTP status, which the source never inspects)
of the `actions/claim-qr?qr_hash=...` GET used by `claim_qr_get_secret`. -/
structure ClaimQrGetResponse where
  status_code : Nat
  claimed : Bool
  event_id : Int
  secret : String
deriving DecidableEq, Repr

/-- The response to the `actions/claim-qr` POST used by `claim_qr`:
HTTP status plus the two body fields read on success. -/
structure ClaimQrPostResponse where
  status_code : Nat
  reason : String
  text : String
  id : Int
  queue_uid : String
deriving DecidableEq, Repr

/-- The upstream world as seen by one event engine: the eligibility
strategy result and the three claim-service endpoints that
`EventABC.mint_poap` and friends touch. -/
structure Upstream where
  is_eligible : String → Bool
  scan : String → ScanResponse
  claim_qr_get : String → ClaimQrGetResponse
  claim_qr_post : String → String → String → ClaimQrPostResponse

/-- The mutable per-event state of `EventABC`: the event id and the
in-memory pool `self.qr_codes` of unclaimed claim codes. -/
structure EventState where
  event_id : Int
  qr_codes : List String
deriving DecidableEq, Repr

/-- Embeds `EventABC.has_collected`: 404 maps to `false`, 200 to `true`, anything
else raises. -/
def has_collected (u : Upstream) (address : String) : Except String Bool :=
  let response := u.scan address
  if response.status_code = 404 then .ok false
  else if response.status_code = 200 then .ok true
  else .error s!"Unexpected status code: {response.status_code}, {response.reason}, {response.text}"

/-- Embeds `EventABC.get_collector_status`: checks collection first, then
eligibility; exceptions are re-wrapped. -/
def get_collector_status (u : Upstream) (address : String) :
    Except String CollectorStatus :=
  match has_collected u address with
  | .error e => .error s!"Unexpected error: {e}"
  | .ok true => .ok .has_collected
  | .ok false =>
      if !(u.is_eligible address) then .ok .is_not_eligible
      else .ok .is_eligible

/-- Embeds `EventABC.claim_qr_get_secret`: parses the claim-qr GET body, asserts
the code unclaimed and the event id matching, and returns the secret.
The HTTP status of the response is not inspected by the source. -/
def claim_qr_get_secret (u : Upstream) (ev : EventState) (qr_code : String) :
    Except String String :=
  let content := u.claim_qr_get qr_code
  if content.claimed then .error "qr hash already claimed"
  else if content.event_id ≠ ev.event_id then
    .error s!"Expected event id {ev.event_id}, got {content.event_id}"
  else .ok content.secret

/-- Embeds `EventABC.claim_qr`: POSTs (address, qr_hash, secret) and returns the
raw response. -/
def claim_qr (u : Upstream) (qr_code : String) (qr_secret : String)
    (to_address : String) : ClaimQrPostResponse :=
  u.claim_qr_post qr_code qr_secret to_address

/-- Message of the ineligible branch of `mint_poap`. -/
def not_eligible_message (to_address : String) (event_id : Int) : String :=
  s!"the address {to_address} is not eligible for the poap from the event id {event_id}"

/-- Message of the already-collected branch of `mint_poap`. -/
def already_collected_message (to_address : String) (event_id : Int) : String :=
  s!"the address {to_address} has already collected the poap for event id {event_id}"

/-- Message of the empty-pool branch of `mint_poap`. -/
def exhausted_message (event_id : Int) : String :=
  s!"this event {event_id} has no run out of claim codes, please inform the organizers"

/-- Message of the non-200 claim-response branch of `mint_poap`. -/
def mint_error_message (r : ClaimQrPostResponse) : String :=
  s!"Unexpected status code whilst minting: {r.status_code}: {r.reason}, {r.text}"

/-- The five result dictionaries `mint_poap` can return, one constructor
per return site in the source. -/
inductive MintResult where
  | not_eligible (message : String)
  | already_collected (message : String)
  | exhausted (message : String)
  | mint_error (status_code : Nat) (message : String)
  | minted (message : String) (token_id : Int) (uuid : String)
deriving DecidableEq, Repr

/-- Embeds `EventABC.mint_poap`.  Returns the result (or a raised exception as
`.error`) together with the updated event state; `self.qr_codes.pop()`
removes the last element of the pool, embedded via `getLast?`/`dropLast`. -/
def mint_poap (u : Upstream) (ev : EventState) (to_address : String) :
    Except String MintResult × EventState :=
  if !(u.is_eligible to_address) then
    (.ok (.not_eligible (not_eligible_message to_address ev.event_id)), ev)
  else
    match has_collected u to_address with
    | .error e => (.error e, ev)
    | .ok true =>
        (.ok (.already_collected (already_collected_message to_address ev.event_id)), ev)
    | .ok false =>
        match ev.qr_codes.getLast? with
        | none => (.ok (.exhausted (exhausted_message ev.event_id)), ev)
        | some qr_code =>
            let ev1 : EventState := { ev with qr_codes := ev.qr_codes.dropLast }
            match claim_qr_get_secret u ev1 qr_code with
            | .error e => (.error e, ev1)
            | .ok qr_secret =>
                let poap_response := claim_qr u qr_code qr_secret to_address
                if poap_response.status_code ≠ 200 then
                  (.ok (.mint_error poap_response.status_code
                          (mint_error_message poap_response)), ev1)
                else
                  (.ok (.minted "POAP successfully minted" poap_response.id
                          poap_response.queue_uid), ev1)

/-- A serial execution of `mint_poap` calls against one shared event:
the same `self.qr_codes` pool is threaded through the calls in order.
Concurrent requests are serialized by the single-threaded event loop
(the engine methods are synchronous and contain no await points), so any
interleaving of N concurrent calls is one such serial order. -/
def run_mints (u : Upstream) : EventState → List String →
    List (Except String MintResult) × EventState
  | ev, [] => ([], ev)
  | ev, a :: rest =>
      let step := mint_poap u ev a
      let next := run_mints u step.2 rest
      (step.1 :: next.1, next.2)

/-- The successive pool contents along a serial execution of `mint_poap`
calls: entry `i` is the pool before the `i`-th call (the last entry is
the final pool). -/
def pool_trace (u : Upstream) : EventState → List String → List (List String)
  | ev, [] => [ev.qr_codes]
  | ev, a :: rest => ev.qr_codes :: pool_trace u (mint_poap u ev a).2 rest

/-- True of the `mint_poap` results produced after a code was removed from
the pool (claim-step failure, raised secret-step error, or success);
false of the three results returned without touching the pool. -/
def claimed_code_result : Except String MintResult → Bool
  | .ok (.not_eligible _) => false
  | .ok (.already_collected _) => false
  | .ok (.exhausted _) => false
  | _ => true

/-- True exactly of the empty-pool (`exhausted`) result. -/
def exhausted_result : Except String MintResult → Bool
  | .ok (.exhausted _) => true
  | _ => false

/-- Observer on a serial execution: the codes handed out by the pool, in
order.  A call received a code exactly when the pool shrank across it, and
the code it received is the last element of the pool it saw (`pop()`). -/
def codes_taken (u : Upstream) : EventState → List String → List String
  | _, [] => []
  | ev, a :: rest =>
      let step := mint_poap u ev a
      if step.2.qr_codes.length < ev.qr_codes.length then
        ev.qr_codes.getLast?.toList ++ codes_taken u step.2 rest
      else codes_taken u step.2 rest

/-! ## OAuth credential cache (`PoapApiWrapper`) -/

/-- The OAuth endpoint response as read by `update_oauth_token`:
`response.ok`, plus the `access_token` and `expires_in` body fields. -/
structure AuthResponse where
  ok : Bool
  access_token : String
  expires_in : Int
deriving DecidableEq, Repr

/-- The credential state of `PoapApiWrapper`: `self.access_token` and
`self.access_token_expiry` (a `datetime`, modelled as an integer). -/
structure OauthState where
  access_token : Option String
  access_token_expiry : Int
deriving DecidableEq, Repr

/-- Outcome of a Python computation: a value, a raised `Exception`, or a
process exit via `sys.exit` (`SystemExit` is not an `Exception` and is not
caught by `except Exception`). -/
inductive PyOutcome (α : Type) where
  | ok (val : α)
  | exn (message : String)
  | exit (code : Nat)
deriving DecidableEq, Repr

/-- Embeds `PoapApiWrapper.has_oauth_token_expired`:
`datetime.now() >= self.access_token_expiry`. -/
def has_oauth_token_expired (now : Int) (st : OauthState) : Bool :=
  decide (st.access_token_expiry ≤ now)

/-- Embeds `PoapApiWrapper.update_oauth_token`: on a non-ok auth response it
prints and calls `sys.exit(1)`; otherwise it stores the new token with
expiry `now + (expires_in - 600)` seconds. -/
def update_oauth_token (now : Int) (auth : AuthResponse) :
    PyOutcome OauthState :=
  if !auth.ok then .exit 1
  else .ok { access_token := some auth.access_token
             access_token_expiry := now + (auth.expires_in - 600) }

/-- The token-maintenance step shared by `PoapApiWrapper.get`: refresh the
token when expired, then issue the HTTP call.  The returned `Nat` counts
the upstream token exchanges this call triggered (0 or 1). -/
def wrapper_get (now : Int) (auth : AuthResponse) (st : OauthState) :
    PyOutcome (OauthState × Nat) :=
  if has_oauth_token_expired now st then
    match update_oauth_token now auth with
    | .exit c => .exit c
    | .exn e => .exn e
    | .ok st1 => .ok (st1, 1)
  else .ok (st, 0)

/-- Embeds the token step of `PoapApiWrapper.post`, which performs the identical token-maintenance step
before its HTTP call. -/
def wrapper_post (now : Int) (auth : AuthResponse) (st : OauthState) :
    PyOutcome (OauthState × Nat) :=
  if has_oauth_token_expired now st then
    match update_oauth_token now auth with
    | .exit c => .exit c
    | .exn e => .exn e
    | .ok st1 => .ok (st1, 1)
  else .ok (st, 0)

/-- Embeds `EventABC.has_collected` as actually executed through
`PoapApiWrapper.get`, with the credential state threaded through: the
wrapper may refresh the token (or exit) before the scan response is
interpreted. -/
def has_collected_via_api (now : Int) (auth : AuthResponse) (st : OauthState)
    (scan_resp : ScanResponse) : PyOutcome (Bool × OauthState × Nat) :=
  match wrapper_get now auth st with
  | .exit c => .exit c
  | .exn e => .exn e
  | .ok (st1, n) =>
      if scan_resp.status_code = 404 then .ok (false, st1, n)
      else if scan_resp.status_code = 200 then .ok (true, st1, n)
      else .exn s!"Unexpected status code: {scan_resp.status_code}, {scan_resp.reason}, {scan_resp.text}"

/-- Result of the `/hasCollected` route of `main.py`: the success dict or
the structured failure dict built by the route's `except Exception`. -/
inductive HasCollectedRoute where
  | ok (has_collected : Bool)
  | failure (message : String)
deriving DecidableEq, Repr

/-- The `/hasCollected/{event_id}/{to_address}` handler of `main.py`
(after the event/address guards): `try: ... except Exception as e:
return failure(str(e))`.  A `SystemExit` raised inside is not an
`Exception`, so it is not caught and propagates. -/
def has_collected_route (now : Int) (auth : AuthResponse) (st : OauthState)
    (scan_resp : ScanResponse) : PyOutcome HasCollectedRoute :=
  match has_collected_via_api now auth st scan_resp with
  | .ok (b, _, _) => .ok (.ok b)
  | .exn e => .ok (.failure e)
  | .exit c => .exit c

/-! ## Bounded eligibility polling (`wait_to_be_eligible_and_mint_poap`) -/

/-- Message of the timeout exception raised by
`wait_to_be_eligible_and_mint_poap`. -/
def timeout_message (timeout : Nat) : String :=
  s!"Address not eligible within {timeout}s"

/-- Embeds `EventABC.wait_to_be_eligible_and_mint_poap`, over a time-indexed
world `w`: at time `t`, if the address is eligible, mint and return the
outcome; otherwise, if `t` is past `t0 + timeout`, raise the timeout
exception; otherwise sleep the fixed 4-second interval and recheck.  Calls
other than the sleep are modelled as instantaneous. -/
def wait_to_be_eligible_and_mint_poap (w : Nat → Upstream) (ev : EventState)
    (to_address : String) (timeout t0 t : Nat) :
    Except String (MintResult × EventState) :=
  if (w t).is_eligible to_address then
    match mint_poap (w t) ev to_address with
    | (.error e, _) => .error e
    | (.ok r, ev1) => .ok (r, ev1)
  else if t > t0 + timeout then
    .error (timeout_message timeout)
  else
    wait_to_be_eligible_and_mint_poap w ev to_address timeout t0 (t + 4)
termination_by t0 + timeout + 1 - t
decreasing_by
  simp only [not_lt] at *
  omega

/-- Observer: the time at which the polling loop above returns (either by
minting or by raising the timeout exception). -/
def wait_exit_time (w : Nat → Upstream) (to_address : String)
    (timeout t0 t : Nat) : Nat :=
  if (w t).is_eligible to_address then t
  else if t > t0 + timeout then t
  else wait_exit_time w to_address timeout t0 (t + 4)
termination_by t0 + timeout + 1 - t
decreasing_by
  simp only [not_lt] at *
  omega

/-! ## Mint-status route (`/getMintStatus`) -/

/-- The parsed body of the `queue-message/{uid}` GET: the operation tag,
the job status, and the embedded `result.tx_hash`. -/
structure QueueMessage where
  operation : String
  status : String
  result_tx_hash : String
deriving DecidableEq, Repr

/-- Embeds `EventABC.get_mint_status`: fetch and parse `queue-message/{uid}`. -/
def get_mint_status (qm : String → QueueMessage) (uid : String) :
    QueueMessage := qm uid

/-- Attribute lookup of `get_uid_status` on the event object, as performed
by the `/getMintStatus` route.  The event classes (`EventABC` and its
subclasses) define `get_mint_status` but no `get_uid_status`, so the
lookup finds nothing and the call raises `AttributeError`. -/
def get_uid_status_method : Option (String → QueueMessage) := none

/-- The `AttributeError` message raised when the route calls the
undefined `get_uid_status` method. -/
def uid_attribute_error_message : String :=
  "DevconEvent object has no attribute get_uid_status"

/-- Result of the `/getMintStatus` route: the success dict or a
structured failure dict. -/
inductive MintStatusRoute where
  | failure (message : String)
  | ok (uid : String) (mint_status : String) (tx_hash : String) (message : String)
deriving DecidableEq, Repr

/-- The operation-tag check and result extraction of the `/getMintStatus`
handler (`main.py`): reject any job whose operation tag is not
`"mintToken"` before trusting the embedded status and tx hash. -/
def mint_status_tag_check (content : QueueMessage) (uid : String) :
    MintStatusRoute :=
  if content.operation ≠ "mintToken" then
    .failure s!"uid operation ({content.operation}) is not \"mintToken\""
  else
    .ok uid content.status content.result_tx_hash
      "Successfully retrieved mint transaction hash"

/-- The `/getMintStatus/{event_id}/{uid}` handler of `main.py` (after the
configured-event guard): it calls `events[event_id].get_uid_status(uid)`
inside `try`, so the `AttributeError` from the missing method is caught
and returned as a generic failure; the tag check is only reachable if the
method existed. -/
def get_mint_status_route (qm : String → QueueMessage) (uid : String) :
    MintStatusRoute :=
  match get_uid_status_method with
  | none => .failure uid_attribute_error_message
  | some f => mint_status_tag_check (f uid) uid

/-! ## Concrete demonstration inputs -/

/-- A demonstration world: every address eligible, none collected, the
secret-fetch and claim endpoints succeed. -/
def upstream_demo : Upstream where
  is_eligible := fun _ => true
  scan := fun _ => ⟨404, "Not Found", ""⟩
  claim_qr_get := fun q => ⟨200, false, 7, s!"secret-{q}"⟩
  claim_qr_post := fun _ _ _ => ⟨200, "OK", "", 55, "uid-1"⟩

/-- A demonstration event: id 7 with a two-code pool. -/
def event_demo : EventState := ⟨7, ["code1", "code2"]⟩

/-- A claim-qr GET endpoint returning junk, used to show results do not
depend on it on the failure paths. -/
def claim_junk_get : String → ClaimQrGetResponse := fun _ => ⟨500, true, 0, ""⟩

/-- A claim POST endpoint returning junk, used to show results do not
depend on it on the failure paths. -/
def claim_junk_post : String → String → String → ClaimQrPostResponse :=
  fun _ _ _ => ⟨500, "err", "boom", 0, ""⟩

/-- A world where no address is eligible. -/
def upstream_ineligible : Upstream :=
  ⟨fun _ => false, fun _ => ⟨404, "", ""⟩, fun _ => ⟨200, false, 7, "s"⟩,
   fun _ _ _ => ⟨200, "", "", 1, "u"⟩⟩

/-- Variant of `upstream_ineligible` with junk claim endpoints. -/
def upstream_ineligible2 : Upstream :=
  ⟨fun _ => false, fun _ => ⟨404, "", ""⟩, claim_junk_get, claim_junk_post⟩

/-- A world where every address is eligible and has already collected. -/
def upstream_collected : Upstream :=
  ⟨fun _ => true, fun _ => ⟨200, "OK", ""⟩, fun _ => ⟨200, false, 7, "s"⟩,
   fun _ _ _ => ⟨200, "", "", 1, "u"⟩⟩

/-- Variant of `upstream_collected` with junk claim endpoints. -/
def upstream_collected2 : Upstream :=
  ⟨fun _ => true, fun _ => ⟨200, "OK", ""⟩, claim_junk_get, claim_junk_post⟩

/-- Variant of `upstream_demo` with junk claim endpoints. -/
def upstream_demo2 : Upstream :=
  ⟨fun _ => true, fun _ => ⟨404, "Not Found", ""⟩, claim_junk_get, claim_junk_post⟩

/-- The demo event with an exhausted pool. -/
def event_empty : EventState := ⟨7, []⟩

/-- Variant of `upstream_collected` with an eligibility strategy that rejects
everyone, to exercise the short-circuit of `get_collector_status`. -/
def upstream_collected_ineligible : Upstream :=
  ⟨fun _ => false, fun _ => ⟨200, "OK", ""⟩, claim_junk_get, claim_junk_post⟩

/-- A world whose claim POST answers 201 Created: a 2xx status that is
not 200. -/
def upstream_c4 : Upstream :=
  ⟨fun _ => true, fun _ => ⟨404, "", ""⟩, fun _ => ⟨200, false, 9, "s3cret"⟩,
   fun _ _ _ => ⟨201, "Created", "", 77, "uid-9"⟩⟩

/-- A one-code event for the 201 scenario. -/
def event_c4 : EventState := ⟨9, ["qr-a"]⟩

/-- Variant of `upstream_c4` with a different (500) HTTP status on the secret-fetch
GET but the same body: `mint_poap` never reads that status. -/
def upstream_c4_get500 : Upstream :=
  ⟨fun _ => true, fun _ => ⟨404, "", ""⟩, fun _ => ⟨500, false, 9, "s3cret"⟩,
   fun _ _ _ => ⟨201, "Created", "", 77, "uid-9"⟩⟩

/-- An OAuth endpoint response that denies the client-credentials
exchange. -/
def auth_denied : AuthResponse := ⟨false, "", 0⟩

/-- An OAuth endpoint response granting a one-hour token. -/
def auth_granted : AuthResponse := ⟨true, "tok-new", 3600⟩

/-- A cached credential whose expiry (time 0) is already past. -/
def expired_state : OauthState := ⟨some "tok-old", 0⟩

/-- A scan response: address not found (has not collected). -/
def scan_404 : ScanResponse := ⟨404, "Not Found", ""⟩

/-- The tag-mismatch failure message of the `/getMintStatus` and
`/waitForMintWithTimeout` handlers. -/
def tag_mismatch_message (operation : String) : String :=
  s!"uid operation ({operation}) is not \"mintToken\""

/-- An upstream job record whose operation tag is not "mintToken". -/
def qm_c7 : String → QueueMessage := fun _ => ⟨"sendEmail", "pending", ""⟩

/-! ## Helper lemmas -/

theorem reverse_eq_getLast_cons {α : Type} (l : List α) (h : l ≠ []) :
    l.reverse = l.getLast h :: l.dropLast.reverse := by
  conv_lhs => rw [← List.dropLast_append_getLast h]
  rw [List.reverse_append]
  rfl

/-- An eligible, uncollected address drives `mint_poap` either to the
exhausted branch (empty pool, pool untouched) or past the `pop()` (pool
loses its last element, the result is one of the post-pop results). -/
theorem mint_poap_open_step (u : Upstream) (ev : EventState) (a : String)
    (ha : u.is_eligible a = true) (hs : (u.scan a).status_code = 404) :
    (ev.qr_codes = [] →
      mint_poap u ev a = (.ok (.exhausted (exhausted_message ev.event_id)), ev)) ∧
    (ev.qr_codes ≠ [] →
      (mint_poap u ev a).2 = { ev with qr_codes := ev.qr_codes.dropLast } ∧
      claimed_code_result (mint_poap u ev a).1 = true ∧
      exhausted_result (mint_poap u ev a).1 = false) := by
  constructor
  · intro h
    simp [mint_poap, ha, has_collected, hs, h]
  · intro h
    have hlast := List.getLast?_eq_getLast ev.qr_codes h
    simp only [mint_poap, ha, Bool.not_true, Bool.false_eq_true, if_false,
      has_collected, hs, if_true, hlast]
    cases hsec : claim_qr_get_secret u { ev with qr_codes := ev.qr_codes.dropLast }
        (ev.qr_codes.getLast h) with
    | error e => simp [claimed_code_result, exhausted_result]
    | ok s =>
        by_cases hc : (claim_qr u (ev.qr_codes.getLast h) s a).status_code ≠ 200 <;>
          simp [hc, claimed_code_result, exhausted_result]

/-- Course-of-values description of a serial run of `mint_poap` calls by
eligible, uncollected addresses: how many calls take a code, how many hit
the empty pool, how large the pool ends, and which codes are handed out. -/
theorem run_mints_spec (u : Upstream) (addrs : List String) :
    ∀ ev : EventState,
      (∀ a ∈ addrs, u.is_eligible a = true) →
      (∀ a ∈ addrs, (u.scan a).status_code = 404) →
      (run_mints u ev addrs).1.countP claimed_code_result
          = min ev.qr_codes.length addrs.length ∧
      (run_mints u ev addrs).1.countP exhausted_result
          = addrs.length - ev.qr_codes.length ∧
      (run_mints u ev addrs).2.qr_codes.length
          = ev.qr_codes.length - addrs.length ∧
      codes_taken u ev addrs = ev.qr_codes.reverse.take addrs.length := by
  induction addrs with
  | nil =>
      intro ev _ _
      simp [run_mints, codes_taken]
  | cons a rest ih =>
      intro ev helig hscan
      have ha : u.is_eligible a = true := helig a (List.mem_cons_self a rest)
      have hs : (u.scan a).status_code = 404 := hscan a (List.mem_cons_self a rest)
      have hstep := mint_poap_open_step u ev a ha hs
      have helig' : ∀ x ∈ rest, u.is_eligible x = true :=
        fun x hx => helig x (List.mem_cons_of_mem a hx)
      have hscan' : ∀ x ∈ rest, (u.scan x).status_code = 404 :=
        fun x hx => hscan x (List.mem_cons_of_mem a hx)
      by_cases hemp : ev.qr_codes = []
      · have heq := hstep.1 hemp
        have ihr := ih ev helig' hscan'
        obtain ⟨ih1, ih2, ih3, ih4⟩ := ihr
        refine ⟨?_, ?_, ?_, ?_⟩
        · simp [run_mints, heq, List.countP_cons, claimed_code_result, ih1, hemp]
        · simp [run_mints, heq, List.countP_cons, exhausted_result, ih2, hemp]
        · simp [run_mints, heq, ih3, hemp]
        · simp [codes_taken, heq, ih4, hemp]
      · obtain ⟨hpool, hclaim, hexh⟩ := hstep.2 hemp
        set ev1 : EventState := { ev with qr_codes := ev.qr_codes.dropLast } with hev1
        have ihr := ih ev1 helig' hscan'
        obtain ⟨ih1, ih2, ih3, ih4⟩ := ihr
        have hlen : ev1.qr_codes.length = ev.qr_codes.length - 1 := by
          simp [hev1, List.length_dropLast]
        have hpos : 0 < ev.qr_codes.length := List.length_pos.mpr hemp
        refine ⟨?_, ?_, ?_, ?_⟩
        · simp [run_mints, List.countP_cons, hpool, ih1, hclaim, hlen]
          omega
        · simp [run_mints, List.countP_cons, hpool, ih2, hexh, hlen]
          omega
        · simp [run_mints, hpool, ih3, hlen]
          omega
        · have hlt : ev.qr_codes.dropLast.length < ev.qr_codes.length := by
            simp only [List.length_dropLast]
            omega
          have hrev := reverse_eq_getLast_cons ev.qr_codes hemp
          simp only [codes_taken, hpool, hev1, hlt, if_true,
            List.getLast?_eq_getLast ev.qr_codes hemp, ih4, hrev,
            List.length_cons, List.take_succ_cons]
          simp

/-- Claim C1: for every event and pool, no two concurrent `mint_poap`
calls receive the same code: when N calls (all eligible, none collected)
run against a pool of size K < N in any serial order — concurrent
requests are serialized by the engine's synchronous execution — exactly K
of them obtain a code, the remaining N − K report exhaustion, the pool
ends empty, and the codes handed out are pairwise distinct (one per pool
entry). -/
theorem mint_pool_mutual_exclusion
    (u : Upstream) (ev : EventState) (addrs : List String)
    (helig : ∀ a ∈ addrs, u.is_eligible a = true)
    (hscan : ∀ a ∈ addrs, (u.scan a).status_code = 404)
    (hnodup : ev.qr_codes.Nodup)
    (hKN : ev.qr_codes.length < addrs.length) :
    (run_mints u ev addrs).1.countP claimed_code_result = ev.qr_codes.length ∧
    (run_mints u ev addrs).1.countP exhausted_result
        = addrs.length - ev.qr_codes.length ∧
    (run_mints u ev addrs).2.qr_codes = [] ∧
    codes_taken u ev addrs = ev.qr_codes.reverse ∧
    (codes_taken u ev addrs).Nodup := by
  obtain ⟨h1, h2, h3, h4⟩ := run_mints_spec u addrs ev helig hscan
  have hmin : min ev.qr_codes.length addrs.length = ev.qr_codes.length :=
    Nat.min_eq_left (Nat.le_of_lt hKN)
  have htake : ev.qr_codes.reverse.take addrs.length = ev.qr_codes.reverse := by
    apply List.take_of_length_le
    simp only [List.length_reverse]
    omega
  refine ⟨?_, h2, ?_, ?_, ?_⟩
  · rw [h1, hmin]
  · rw [← List.length_eq_zero, h3]
    omega
  · rw [h4, htake]
  · rw [h4, htake, List.nodup_reverse]
    exact hnodup

/-- Witness for C1: three mints against the two-code demo pool. -/
theorem mint_pool_mutual_exclusion_witness :
    (run_mints upstream_demo event_demo ["a1", "a2", "a3"]).1.countP
        claimed_code_result = event_demo.qr_codes.length ∧
    (run_mints upstream_demo event_demo ["a1", "a2", "a3"]).1.countP
        exhausted_result = ["a1", "a2", "a3"].length - event_demo.qr_codes.length ∧
    (run_mints upstream_demo event_demo ["a1", "a2", "a3"]).2.qr_codes = [] ∧
    codes_taken upstream_demo event_demo ["a1", "a2", "a3"]
        = event_demo.qr_codes.reverse ∧
    (codes_taken upstream_demo event_demo ["a1", "a2", "a3"]).Nodup :=
  mint_pool_mutual_exclusion upstream_demo event_demo ["a1", "a2", "a3"]
    (fun _ _ => rfl) (fun _ _ => rfl) (by decide) (by decide)

/-- Each `mint_poap` call leaves the pool either unchanged or shortened
by its last element: the new pool is always a prefix of the old one. -/
theorem mint_poap_pool_pre (u : Upstream) (ev : EventState) (a : String) :
    (mint_poap u ev a).2.qr_codes <+: ev.qr_codes := by
  unfold mint_poap
  split
  · exact List.prefix_refl _
  · split
    · exact List.prefix_refl _
    · exact List.prefix_refl _
    · split
      · exact List.prefix_refl _
      · dsimp only
        split
        · exact List.dropLast_prefix _
        · split
          · exact List.dropLast_prefix _
          · exact List.dropLast_prefix _

theorem pool_trace_length_eq (u : Upstream) (addrs : List String) :
    ∀ ev : EventState, (pool_trace u ev addrs).length = addrs.length + 1 := by
  induction addrs with
  | nil => intro ev; rfl
  | cons a rest ih => intro ev; simp [pool_trace, ih]

theorem pool_trace_get_zero (u : Upstream) (ev : EventState)
    (addrs : List String) (h0 : 0 < (pool_trace u ev addrs).length) :
    (pool_trace u ev addrs).get ⟨0, h0⟩ = ev.qr_codes := by
  cases addrs <;> rfl

/-- Along any serial sequence of `mint_poap` calls, every later pool is a
prefix of every earlier pool. -/
theorem pool_trace_mono (u : Upstream) :
    ∀ (addrs : List String) (ev : EventState) (i j : Nat) (hij : i ≤ j)
      (hj : j < (pool_trace u ev addrs).length),
      (pool_trace u ev addrs).get ⟨j, hj⟩
        <+: (pool_trace u ev addrs).get ⟨i, Nat.lt_of_le_of_lt hij hj⟩ := by
  intro addrs
  induction addrs with
  | nil =>
      intro ev i j hij hj
      have hlen : (pool_trace u ev []).length = 1 := rfl
      have hj0 : j = 0 := by omega
      have hi0 : i = 0 := by omega
      subst hj0
      subst hi0
      exact List.prefix_refl _
  | cons a rest ih =>
      intro ev i j hij hj
      match i, j with
      | 0, 0 => exact List.prefix_refl _
      | 0, j' + 1 =>
          have hj' : j' < (pool_trace u (mint_poap u ev a).2 rest).length := by
            have := pool_trace_length_eq u (a :: rest) ev
            have := pool_trace_length_eq u rest (mint_poap u ev a).2
            have hlc : (a :: rest).length = rest.length + 1 := rfl
            omega
          have htail :
              (pool_trace u ev (a :: rest)).get ⟨j' + 1, hj⟩
                = (pool_trace u (mint_poap u ev a).2 rest).get ⟨j', hj'⟩ := rfl
          have hhead :
              (pool_trace u ev (a :: rest)).get
                  ⟨0, Nat.lt_of_le_of_lt (Nat.zero_le (j' + 1)) hj⟩
                = ev.qr_codes := rfl
          rw [htail, hhead]
          have h0t : 0 < (pool_trace u (mint_poap u ev a).2 rest).length := by
            omega
          have hchain := ih (mint_poap u ev a).2 0 j' (Nat.zero_le j') hj'
          rw [pool_trace_get_zero u (mint_poap u ev a).2 rest] at hchain
          exact hchain.trans (mint_poap_pool_pre u ev a)
      | i' + 1, j' + 1 =>
          have hj' : j' < (pool_trace u (mint_poap u ev a).2 rest).length := by
            have := pool_trace_length_eq u (a :: rest) ev
            have := pool_trace_length_eq u rest (mint_poap u ev a).2
            have hlc : (a :: rest).length = rest.length + 1 := rfl
            omega
          exact ih (mint_poap u ev a).2 i' j' (Nat.le_of_succ_le_succ hij) hj'

/-- Claim C2: after construction the pool is mutated only by removal: in
any serial sequence of `mint_poap` calls, every later pool is a prefix of
every earlier pool, so the pool size never increases, a code absent from
an earlier pool (in particular one just removed) is never present in a
later pool, and when the initial pool has no duplicates every pool along
the way has none, so each code is removed at most once. -/
theorem pool_codes_never_return
    (u : Upstream) (ev : EventState) (addrs : List String) (i j : Nat)
    (hij : i ≤ j) (hj : j < (pool_trace u ev addrs).length) :
    ((pool_trace u ev addrs).get ⟨j, hj⟩
        <+: (pool_trace u ev addrs).get ⟨i, Nat.lt_of_le_of_lt hij hj⟩) ∧
    ((pool_trace u ev addrs).get ⟨j, hj⟩).length
        ≤ ((pool_trace u ev addrs).get ⟨i, Nat.lt_of_le_of_lt hij hj⟩).length ∧
    (∀ c, c ∉ (pool_trace u ev addrs).get ⟨i, Nat.lt_of_le_of_lt hij hj⟩ →
        c ∉ (pool_trace u ev addrs).get ⟨j, hj⟩) ∧
    (ev.qr_codes.Nodup → ((pool_trace u ev addrs).get ⟨j, hj⟩).Nodup) := by
  have hpre := pool_trace_mono u addrs ev i j hij hj
  refine ⟨hpre, hpre.length_le, fun c hc hcj => hc (hpre.subset hcj), ?_⟩
  intro hnd
  have hpre0 := pool_trace_mono u addrs ev 0 j (Nat.zero_le j) hj
  rw [pool_trace_get_zero u ev addrs] at hpre0
  exact hnd.sublist hpre0.sublist

/-- Witness for C2: in the demo run the code "code2" removed by the first
mint is absent from the pool two steps later, which is still a
duplicate-free prefix of the pool one step in. -/
theorem pool_codes_never_return_witness :
    ((pool_trace upstream_demo event_demo ["a1", "a2", "a3"]).get
        ⟨2, by decide⟩
      <+: (pool_trace upstream_demo event_demo ["a1", "a2", "a3"]).get
        ⟨1, by decide⟩) ∧
    "code2" ∉ (pool_trace upstream_demo event_demo ["a1", "a2", "a3"]).get
        ⟨2, by decide⟩ ∧
    ((pool_trace upstream_demo event_demo ["a1", "a2", "a3"]).get
        ⟨2, by decide⟩).Nodup := by
  have h := pool_codes_never_return upstream_demo event_demo ["a1", "a2", "a3"]
    1 2 (by decide) (by decide)
  exact ⟨h.1, h.2.2.1 "code2" (by decide), h.2.2.2 (by decide)⟩

/-- Claim C3: each of the three guard failures of `mint_poap`
(ineligible, already collected, empty pool) returns the corresponding
structured failure, leaves the event state (in particular the pool)
unchanged, and issues no upstream claim call: the result is identical
under any world `u2` that agrees with `u` on eligibility and the scan
endpoint but has arbitrary claim endpoints. -/
theorem mint_poap_failure_no_side_effect
    (u u2 : Upstream) (ev : EventState) (a : String)
    (he : u2.is_eligible = u.is_eligible) (hs : u2.scan = u.scan) :
    (u.is_eligible a = false →
      mint_poap u ev a
          = (.ok (.not_eligible (not_eligible_message a ev.event_id)), ev) ∧
      mint_poap u2 ev a = mint_poap u ev a) ∧
    (u.is_eligible a = true → (u.scan a).status_code = 200 →
      mint_poap u ev a
          = (.ok (.already_collected (already_collected_message a ev.event_id)), ev) ∧
      mint_poap u2 ev a = mint_poap u ev a) ∧
    (u.is_eligible a = true → (u.scan a).status_code = 404 → ev.qr_codes = [] →
      mint_poap u ev a
          = (.ok (.exhausted (exhausted_message ev.event_id)), ev) ∧
      mint_poap u2 ev a = mint_poap u ev a) := by
  refine ⟨?_, ?_, ?_⟩
  · intro hne
    refine ⟨by simp [mint_poap, hne], ?_⟩
    simp [mint_poap, he, hs, hne]
  · intro helig hcol
    have h2 : has_collected u a = .ok true := by simp [has_collected, hcol]
    refine ⟨by simp [mint_poap, helig, h2], ?_⟩
    simp [mint_poap, he, hs, helig, has_collected, hcol]
  · intro helig hscan hemp
    have h2 : has_collected u a = .ok false := by simp [has_collected, hscan]
    refine ⟨by simp [mint_poap, helig, h2, hemp], ?_⟩
    simp [mint_poap, he, hs, helig, has_collected, hscan, hemp]

/-- Witness for C3: the three failure branches at concrete worlds, each
compared against a twin world with junk claim endpoints. -/
theorem mint_poap_failure_no_side_effect_witness :
    (mint_poap upstream_ineligible event_demo "b1"
        = (.ok (.not_eligible (not_eligible_message "b1" event_demo.event_id)),
           event_demo) ∧
     mint_poap upstream_ineligible2 event_demo "b1"
        = mint_poap upstream_ineligible event_demo "b1") ∧
    (mint_poap upstream_collected event_demo "b2"
        = (.ok (.already_collected
              (already_collected_message "b2" event_demo.event_id)),
           event_demo) ∧
     mint_poap upstream_collected2 event_demo "b2"
        = mint_poap upstream_collected event_demo "b2") ∧
    (mint_poap upstream_demo event_empty "b3"
        = (.ok (.exhausted (exhausted_message event_empty.event_id)),
           event_empty) ∧
     mint_poap upstream_demo2 event_empty "b3"
        = mint_poap upstream_demo event_empty "b3") :=
  ⟨(mint_poap_failure_no_side_effect upstream_ineligible upstream_ineligible2
      event_demo "b1" rfl rfl).1 rfl,
   (mint_poap_failure_no_side_effect upstream_collected upstream_collected2
      event_demo "b2" rfl rfl).2.1 rfl rfl,
   (mint_poap_failure_no_side_effect upstream_demo upstream_demo2
      event_empty "b3" rfl rfl).2.2 rfl rfl rfl⟩

/-- Claim C5: `get_collector_status` checks `has_collected` first — when
it reports collected the status is `has_collected` whatever the
eligibility strategy says (short-circuit) — and otherwise agrees with
`is_eligible`: eligible gives `is_eligible`, ineligible gives
`is_not_eligible`. -/
theorem get_collector_status_consistent (u : Upstream) (a : String) :
    (has_collected u a = .ok true →
      get_collector_status u a = .ok .has_collected ∧
      ∀ u2 : Upstream, u2.scan = u.scan →
        get_collector_status u2 a = .ok .has_collected) ∧
    (has_collected u a = .ok false → u.is_eligible a = true →
      get_collector_status u a = .ok .is_eligible) ∧
    (has_collected u a = .ok false → u.is_eligible a = false →
      get_collector_status u a = .ok .is_not_eligible) := by
  refine ⟨?_, ?_, ?_⟩
  · intro h
    refine ⟨by simp [get_collector_status, h], ?_⟩
    intro u2 hs
    have h2 : has_collected u2 a = .ok true := by
      simp only [has_collected, hs]
      simpa only [has_collected] using h
    simp [get_collector_status, h2]
  · intro h helig
    simp [get_collector_status, h, helig]
  · intro h helig
    simp [get_collector_status, h, helig]

/-- Witness for C5: the three statuses at concrete worlds, including the
short-circuit against a world that claims everyone ineligible. -/
theorem get_collector_status_consistent_witness :
    get_collector_status upstream_collected "c1" = .ok .has_collected ∧
    get_collector_status upstream_collected_ineligible "c1"
        = .ok .has_collected ∧
    get_collector_status upstream_demo "c2" = .ok .is_eligible ∧
    get_collector_status upstream_ineligible "c3" = .ok .is_not_eligible :=
  ⟨((get_collector_status_consistent upstream_collected "c1").1 rfl).1,
   ((get_collector_status_consistent upstream_collected "c1").1 rfl).2
      upstream_collected_ineligible rfl,
   (get_collector_status_consistent upstream_demo "c2").2.1 rfl rfl,
   (get_collector_status_consistent upstream_ineligible "c3").2.2 rfl rfl⟩

/-- Counterexample to C4: a 2xx (201) response from the claim step does
not yield a success result — `mint_poap` tests `status_code != 200` and
returns a mint failure. -/
theorem claim_2xx_yields_failure :
    200 ≤ 201 ∧ 201 < 300 ∧
    (mint_poap upstream_c4 event_c4 "0xA").1
        = .ok (.mint_error 201 (mint_error_message ⟨201, "Created", "", 77, "uid-9"⟩)) := by
  refine ⟨by decide, by decide, ?_⟩
  rfl

/-- Claim C4 (amended): in the two-step claim protocol of `mint_poap`,
the HTTP status of the secret-fetch step is never inspected (the result
is unchanged under any world differing only in that status; that step's
failures surface as raised errors about a claimed code or a mismatched
event id, without the upstream status); for the claim-submission step, a
status other than 200 — including other 2xx codes — yields a mint
failure carrying the upstream status and message, and a 200 status
yields a success result carrying the issued token id and the
asynchronous queue uid. -/
theorem claim_protocol_steps (u : Upstream) (ev : EventState) (a : String)
    (helig : u.is_eligible a = true) (hscan : (u.scan a).status_code = 404)
    (hne : ev.qr_codes ≠ []) :
    (∀ u2 : Upstream, u2.is_eligible = u.is_eligible → u2.scan = u.scan →
      u2.claim_qr_post = u.claim_qr_post →
      (∀ q, (u2.claim_qr_get q).claimed = (u.claim_qr_get q).claimed ∧
            (u2.claim_qr_get q).event_id = (u.claim_qr_get q).event_id ∧
            (u2.claim_qr_get q).secret = (u.claim_qr_get q).secret) →
      mint_poap u2 ev a = mint_poap u ev a) ∧
    (∀ s, claim_qr_get_secret u { ev with qr_codes := ev.qr_codes.dropLast }
          (ev.qr_codes.getLast hne) = .ok s →
      ((u.claim_qr_post (ev.qr_codes.getLast hne) s a).status_code ≠ 200 →
        mint_poap u ev a
          = (.ok (.mint_error
                (u.claim_qr_post (ev.qr_codes.getLast hne) s a).status_code
                (mint_error_message (u.claim_qr_post (ev.qr_codes.getLast hne) s a))),
             { ev with qr_codes := ev.qr_codes.dropLast })) ∧
      ((u.claim_qr_post (ev.qr_codes.getLast hne) s a).status_code = 200 →
        mint_poap u ev a
          = (.ok (.minted "POAP successfully minted"
                (u.claim_qr_post (ev.qr_codes.getLast hne) s a).id
                (u.claim_qr_post (ev.qr_codes.getLast hne) s a).queue_uid),
             { ev with qr_codes := ev.qr_codes.dropLast }))) := by
  have hlast := List.getLast?_eq_getLast ev.qr_codes hne
  constructor
  · intro u2 he hs hp hg
    have hsec : ∀ evx qx, claim_qr_get_secret u2 evx qx = claim_qr_get_secret u evx qx := by
      intro evx qx
      simp only [claim_qr_get_secret, (hg qx).1, (hg qx).2.1, (hg qx).2.2]
    simp only [mint_poap, he, hs, hsec, claim_qr, hp, has_collected]
  · intro s hsok
    have h2 : has_collected u a = .ok false := by simp [has_collected, hscan]
    constructor
    · intro hst
      simp only [mint_poap, helig, Bool.not_true, Bool.false_eq_true, if_false, h2,
        hlast, hsok, claim_qr, if_pos hst]
    · intro hst
      have hst' : ¬((u.claim_qr_post (ev.qr_codes.getLast hne) s a).status_code ≠ 200) := by
        omega
      simp only [mint_poap, helig, Bool.not_true, Bool.false_eq_true, if_false, h2,
        hlast, hsok, claim_qr, if_neg hst']

/-- Witness for C4 (amended): the demo world (claim status 200) for the
success leg and step-1-status independence, and the 201 world for the
failure leg. -/
theorem claim_protocol_steps_witness :
    mint_poap upstream_demo event_demo "a1"
        = (.ok (.minted "POAP successfully minted" 55 "uid-1"),
           { event_demo with qr_codes := event_demo.qr_codes.dropLast }) ∧
    mint_poap upstream_c4_get500 event_c4 "0xA" = mint_poap upstream_c4 event_c4 "0xA" ∧
    mint_poap upstream_c4 event_c4 "0xA"
        = (.ok (.mint_error 201 (mint_error_message ⟨201, "Created", "", 77, "uid-9"⟩)),
           { event_c4 with qr_codes := event_c4.qr_codes.dropLast }) := by
  have hdemo := claim_protocol_steps upstream_demo event_demo "a1" rfl rfl (by decide)
  have hc4 := claim_protocol_steps upstream_c4 event_c4 "0xA" rfl rfl (by decide)
  refine ⟨?_, ?_, ?_⟩
  · exact (hdemo.2 "secret-code2" rfl).2 rfl
  · exact hc4.1 upstream_c4_get500 rfl rfl rfl (fun q => ⟨rfl, rfl, rfl⟩)
  · exact (hc4.2 "s3cret" rfl).1 (by decide)

/-- Counterexample to C6: at time 1000 with an expired cached token and a
failing token exchange, the `/hasCollected` request does not return a
structured failure — the wrapper calls `sys.exit(1)` inside the request,
and `SystemExit` escapes the route's `except Exception`, aborting the
process. -/
theorem request_failure_aborts_process :
    has_collected_route 1000 auth_denied expired_state scan_404
        = .exit 1 := by
  rfl

/-- Claim C6 (amended): every failure raised as an ordinary `Exception`
while handling a request is caught at the operation boundary and returned
as a structured failure result — except that when the cached OAuth token
is expired at request time and the upstream token exchange fails, the
wrapper calls `sys.exit(1)`, which the boundary's `except Exception` does
not catch: that request aborts the service process. -/
theorem request_failures_caught_except_auth_exit
    (now : Int) (auth : AuthResponse) (st : OauthState)
    (scan_resp : ScanResponse) :
    (has_oauth_token_expired now st = true → auth.ok = false →
      has_collected_route now auth st scan_resp = .exit 1) ∧
    (has_oauth_token_expired now st = false ∨ auth.ok = true →
      (∃ b, has_collected_route now auth st scan_resp = .ok (.ok b)) ∨
      (∃ m, has_collected_route now auth st scan_resp = .ok (.failure m))) := by
  constructor
  · intro hexp hbad
    simp [has_collected_route, has_collected_via_api, wrapper_get, hexp,
      update_oauth_token, hbad]
  · intro hok
    have hstep : ∃ st1 n, wrapper_get now auth st = .ok (st1, n) := by
      rcases hok with hfresh | hgrant
      · exact ⟨st, 0, by simp [wrapper_get, hfresh]⟩
      · by_cases hexp : has_oauth_token_expired now st = true
        · exact ⟨⟨some auth.access_token, now + (auth.expires_in - 600)⟩, 1,
            by simp [wrapper_get, hexp, update_oauth_token, hgrant]⟩
        · exact ⟨st, 0, by simp [wrapper_get, hexp]⟩
    obtain ⟨st1, n, hw⟩ := hstep
    by_cases h404 : scan_resp.status_code = 404
    · exact Or.inl ⟨false, by simp [has_collected_route, has_collected_via_api, hw, h404]⟩
    · by_cases h200 : scan_resp.status_code = 200
      · exact Or.inl ⟨true, by simp [has_collected_route, has_collected_via_api, hw, h404, h200]⟩
      · refine Or.inr
          ⟨s!"Unexpected status code: {scan_resp.status_code}, {scan_resp.reason}, {scan_resp.text}", ?_⟩
        simp [has_collected_route, has_collected_via_api, hw, h404, h200]

/-- Witness for C6 (amended): an expired token with a denied exchange
aborts the process, while with a fresh token (expiry 4000) at time 1000
the scan error is caught and returned as a structured failure. -/
theorem request_failures_caught_except_auth_exit_witness :
    has_collected_route 1000 auth_denied expired_state scan_404 = .exit 1 ∧
    ((∃ b, has_collected_route 1000 auth_denied ⟨some "tok-old", 4000⟩ ⟨500, "err", "boom"⟩
          = .ok (.ok b)) ∨
     (∃ m, has_collected_route 1000 auth_denied ⟨some "tok-old", 4000⟩ ⟨500, "err", "boom"⟩
          = .ok (.failure m))) :=
  ⟨(request_failures_caught_except_auth_exit 1000 auth_denied
      expired_state scan_404).1 rfl rfl,
   (request_failures_caught_except_auth_exit 1000 auth_denied
      ⟨some "tok-old", 4000⟩ ⟨500, "err", "boom"⟩).2 (Or.inl (by decide))⟩

/-- Claim C9: with the cached token past its expiry, the next call
through the wrapper performs exactly one token exchange and stores expiry
`now + (expires_in - 600)` — strictly before the provider-declared lapse
`now + expires_in` — and any later call before that stored expiry
performs no exchange. -/
theorem oauth_refresh_once (now : Int) (auth : AuthResponse) (st : OauthState)
    (hexp : has_oauth_token_expired now st = true) (hok : auth.ok = true) :
    wrapper_get now auth st
        = .ok (⟨some auth.access_token, now + (auth.expires_in - 600)⟩, 1) ∧
    (0 < auth.expires_in → now + (auth.expires_in - 600) < now + auth.expires_in) ∧
    (∀ now2 auth2, now2 < now + (auth.expires_in - 600) →
      wrapper_get now2 auth2 ⟨some auth.access_token, now + (auth.expires_in - 600)⟩
          = .ok (⟨some auth.access_token, now + (auth.expires_in - 600)⟩, 0)) := by
  refine ⟨?_, ?_, ?_⟩
  · simp [wrapper_get, hexp, update_oauth_token, hok]
  · intro _
    omega
  · intro now2 auth2 hlt
    have hfresh : has_oauth_token_expired now2
        ⟨some auth.access_token, now + (auth.expires_in - 600)⟩ = false := by
      simp only [has_oauth_token_expired, decide_eq_false_iff_not, not_le]
      exact hlt
    simp [wrapper_get, hfresh]

/-- Witness for C9: expired cache at time 1000, one-hour grant; a later
call at time 1500 (before the stored expiry 4000) performs no exchange
even against a denied auth endpoint. -/
theorem oauth_refresh_once_witness :
    wrapper_get 1000 auth_granted expired_state
        = .ok (⟨some "tok-new", 1000 + (3600 - 600)⟩, 1) ∧
    (1000 : Int) + (auth_granted.expires_in - 600) < 1000 + auth_granted.expires_in ∧
    wrapper_get 1500 auth_denied ⟨some "tok-new", 1000 + (auth_granted.expires_in - 600)⟩
        = .ok (⟨some "tok-new", 1000 + (auth_granted.expires_in - 600)⟩, 0) := by
  have h := oauth_refresh_once 1000 auth_granted expired_state (by decide) rfl
  exact ⟨h.1, h.2.1 (by decide), h.2.2 1500 auth_denied (by decide)⟩

/-- Claim C10: when the provider-declared lifetime `expires_in` is at
most the fixed 600-second safety margin, the stored expiry is already at
or before the refresh instant, so at every later instant the token tests
expired and every wrapper `get`/`post` call performs another token
exchange; the once-per-lifetime behaviour of C9 needs
`expires_in > 600`. -/
theorem oauth_short_lifetime_always_refreshes
    (now : Int) (auth : AuthResponse)
    (hok : auth.ok = true) (hshort : auth.expires_in ≤ 600) :
    update_oauth_token now auth
        = .ok ⟨some auth.access_token, now + (auth.expires_in - 600)⟩ ∧
    now + (auth.expires_in - 600) ≤ now ∧
    (∀ now2, now ≤ now2 →
      has_oauth_token_expired now2
          ⟨some auth.access_token, now + (auth.expires_in - 600)⟩ = true ∧
      (∀ auth2, auth2.ok = true →
        wrapper_get now2 auth2 ⟨some auth.access_token, now + (auth.expires_in - 600)⟩
            = .ok (⟨some auth2.access_token, now2 + (auth2.expires_in - 600)⟩, 1) ∧
        wrapper_post now2 auth2 ⟨some auth.access_token, now + (auth.expires_in - 600)⟩
            = .ok (⟨some auth2.access_token, now2 + (auth2.expires_in - 600)⟩, 1))) := by
  refine ⟨by simp [update_oauth_token, hok], by omega, ?_⟩
  intro now2 hle
  have hexp : has_oauth_token_expired now2
      ⟨some auth.access_token, now + (auth.expires_in - 600)⟩ = true := by
    simp only [has_oauth_token_expired, decide_eq_true_eq]
    omega
  refine ⟨hexp, ?_⟩
  intro auth2 hok2
  constructor
  · simp [wrapper_get, hexp, update_oauth_token, hok2]
  · simp [wrapper_post, hexp, update_oauth_token, hok2]

/-- Witness for C10: a 600-second grant at time 1000: the stored expiry
is 1000, and a call at time 2000 refreshes again through both `get` and
`post`. -/
theorem oauth_short_lifetime_always_refreshes_witness :
    update_oauth_token 1000 ⟨true, "tok-short", 600⟩
        = .ok ⟨some "tok-short", 1000 + (600 - 600)⟩ ∧
    (1000 : Int) + (600 - 600) ≤ 1000 ∧
    (has_oauth_token_expired 2000 ⟨some "tok-short", 1000 + (600 - 600)⟩ = true ∧
      (wrapper_get 2000 auth_granted ⟨some "tok-short", 1000 + (600 - 600)⟩
          = .ok (⟨some "tok-new", 2000 + (3600 - 600)⟩, 1) ∧
       wrapper_post 2000 auth_granted ⟨some "tok-short", 1000 + (600 - 600)⟩
          = .ok (⟨some "tok-new", 2000 + (3600 - 600)⟩, 1))) := by
  have h := oauth_short_lifetime_always_refreshes 1000 ⟨true, "tok-short", 600⟩
    rfl (by decide)
  have h2 := h.2.2 2000 (by decide)
  exact ⟨h.1, h.2.1, h2.1, h2.2 auth_granted rfl⟩

/-- Claim C7 (code bug exhibit): the deployed `/getMintStatus` route
calls the undefined method `get_uid_status`, so for every uid — here one
whose job record carries the foreign tag "sendEmail" — it returns the
generic `AttributeError` failure and never reaches the operation-tag
check; the tag check itself (present in the route body, and fed by
`EventABC.get_mint_status` under the intended wiring) would return the
tag-mismatch failure rather than the raw upstream payload. -/
theorem mint_status_route_attribute_error :
    get_mint_status_route qm_c7 "uid-1" = .failure uid_attribute_error_message ∧
    mint_status_tag_check (get_mint_status qm_c7 "uid-1") "uid-1"
        = .failure (tag_mismatch_message "sendEmail") ∧
    ("sendEmail" : String) ≠ "mintToken" := by
  refine ⟨rfl, ?_, by decide⟩
  rfl

/-- Unwinding lemma for the polling loop against a never-eligible
address, by induction on the remaining time budget: the loop raises the
timeout exception, its exit instant is past `t0 + timeout` but within one
sleep interval of it, and it only observes instants 4 seconds apart. -/
theorem wait_never_eligible (w : Nat → Upstream) (ev : EventState)
    (a : String) (timeout t0 : Nat)
    (hnever : ∀ t, (w t).is_eligible a = false) :
    ∀ k t, t0 + timeout + 1 - t ≤ k →
      wait_to_be_eligible_and_mint_poap w ev a timeout t0 t
          = .error (timeout_message timeout) ∧
      t ≤ wait_exit_time w a timeout t0 t ∧
      t0 + timeout < wait_exit_time w a timeout t0 t ∧
      wait_exit_time w a timeout t0 t ≤ max t (t0 + timeout + 4) ∧
      (wait_exit_time w a timeout t0 t - t) % 4 = 0 := by
  intro k
  induction k with
  | zero =>
      intro t ht
      have hgt : t > t0 + timeout := by omega
      rw [wait_to_be_eligible_and_mint_poap.eq_def, wait_exit_time.eq_def]
      simp [hnever t, hgt]
  | succ k ih =>
      intro t ht
      by_cases hgt : t > t0 + timeout
      · rw [wait_to_be_eligible_and_mint_poap.eq_def, wait_exit_time.eq_def]
        simp [hnever t, hgt]
      · have hrec := ih (t + 4) (by omega)
        rw [wait_to_be_eligible_and_mint_poap.eq_def, wait_exit_time.eq_def]
        simp [hnever t, hgt]
        refine ⟨hrec.1, ?_, ?_, ?_, ?_⟩ <;> omega

/-- Claim C8: `wait_to_be_eligible_and_mint_poap` polls eligibility on a
fixed 4-second interval; if the address is eligible at the start it
invokes `mint_poap` and returns that outcome; against an address that
never becomes eligible it raises the timeout error at an instant strictly
after `t0 + timeout` and at most `t0 + timeout + 4` — approximately the
requested timeout, not earlier and not indefinitely later. -/
theorem wait_to_be_eligible_behaviour (w : Nat → Upstream) (ev : EventState)
    (a : String) (timeout t0 : Nat) :
    ((∀ t, (w t).is_eligible a = false) →
      wait_to_be_eligible_and_mint_poap w ev a timeout t0 t0
          = .error (timeout_message timeout) ∧
      t0 + timeout < wait_exit_time w a timeout t0 t0 ∧
      wait_exit_time w a timeout t0 t0 ≤ t0 + timeout + 4 ∧
      (wait_exit_time w a timeout t0 t0 - t0) % 4 = 0) ∧
    ((w t0).is_eligible a = true →
      wait_to_be_eligible_and_mint_poap w ev a timeout t0 t0
          = match mint_poap (w t0) ev a with
            | (.error e, _) => .error e
            | (.ok r, ev1) => .ok (r, ev1)) := by
  constructor
  · intro hnever
    have h := wait_never_eligible w ev a timeout t0 hnever
      (t0 + timeout + 1 - t0) t0 le_rfl
    refine ⟨h.1, h.2.2.1, ?_, h.2.2.2.2⟩
    have := h.2.2.2.1
    omega
  · intro helig
    rw [wait_to_be_eligible_and_mint_poap.eq_def]
    simp only [helig, if_true]

/-- Witness for C8: a never-eligible world (timeout after 12 seconds for
a 10-second budget starting at 0) and an immediately-eligible world
(returns the demo mint outcome). -/
theorem wait_to_be_eligible_behaviour_witness :
    (wait_to_be_eligible_and_mint_poap (fun _ => upstream_ineligible)
        event_demo "a1" 10 0 0 = .error (timeout_message 10) ∧
     0 + 10 < wait_exit_time (fun _ => upstream_ineligible) "a1" 10 0 0 ∧
     wait_exit_time (fun _ => upstream_ineligible) "a1" 10 0 0 ≤ 0 + 10 + 4 ∧
     (wait_exit_time (fun _ => upstream_ineligible) "a1" 10 0 0 - 0) % 4 = 0) ∧
    wait_to_be_eligible_and_mint_poap (fun _ => upstream_demo)
        event_demo "a1" 10 0 0
      = .ok (.minted "POAP successfully minted" 55 "uid-1", ⟨7, ["code1"]⟩) := by
  refine ⟨(wait_to_be_eligible_behaviour (fun _ => upstream_ineligible)
    event_demo "a1" 10 0).1 (fun t => rfl), ?_⟩
  have h := (wait_to_be_eligible_behaviour (fun _ => upstream_demo)
    event_demo "a1" 10 0).2 rfl
  rw [h]
  rfl

end WenPoap

